import Mathlib

/-
Verification of the Dropbox CLI client (src/index.js).

The client runs on a JavaScript engine without optional chaining; its
behaviour is driven by JS value semantics (truthiness, the logical-or
chain, property access, string conversion).  We first give a shallow
embedding of the JS values and operations the client uses, then translate
the client's request/response layer and its document orchestration
functions, and finally prove properties about them.

Network interaction is modelled by an oracle `Nat → HttpResponse` giving
the response to the n-th network call an operation issues; the list of
issued calls is returned alongside the result, so call-count and
call-shape properties are provable.  `JSON.parse` (an engine builtin, not
repository code) is modelled by the `bodyJson` field of `HttpResponse`:
`some v` when the body text parses to the JSON value `v`, `none` when
parsing throws.  `JSON.parse` never produces `undefined`, but the model
keeps the guard uniform.
-/

/-- A JavaScript value, restricted to the shapes that flow through the
client: primitives, arrays and plain objects. Numbers are modelled as
integers (all numbers handled by the client are lengths and status codes). -/
inductive JSVal where
  | undef
  | null
  | bool (b : Bool)
  | num (n : Int)
  | str (s : String)
  | arr (xs : List JSVal)
  | obj (fields : List (String × JSVal))

/-- JS truthiness: `undefined`, `null`, `false`, `0` and `""` are falsy;
every other value (including every object and array) is truthy. -/
def truthy : JSVal → Bool
  | .undef => false
  | .null => false
  | .bool b => b
  | .num n => n != 0
  | .str s => s != ""
  | .arr _ => true
  | .obj _ => true

/-- The JS `a || b` operator: the first truthy operand wins. -/
def jsOr (a b : JSVal) : JSVal :=
  if truthy a then a else b

/-- Decimal digit value of a character, by its code point. -/
def digitVal? (c : Char) : Option Nat :=
  if 48 ≤ c.toNat && c.toNat ≤ 57 then some (c.toNat - 48) else none

def natDigitsAux : List Char → Nat → Option Nat
  | [], acc => some acc
  | c :: cs, acc =>
    match digitVal? c with
    | some d => natDigitsAux cs (acc * 10 + d)
    | none => none

/-- Parse a string as a (non-negative) array index, as JS property lookup
does for `xs[0]` and `s[0]`. -/
def strIndex? (s : String) : Option Nat :=
  match s.toList with
  | [] => none
  | cs => natDigitsAux cs 0

/-- JS property access `o[k]` for a base `o` that is not `null` or
`undefined` (access on those throws; call sites guard for it explicitly).
Objects look up own fields; arrays and strings answer `length` and numeric
indices; other primitives have no own properties of interest, giving
`undefined` — exactly what the client's guarded accesses rely on. -/
def jsGet : JSVal → String → JSVal
  | .obj fields, k => ((fields.lookup k).getD .undef)
  | .arr xs, k =>
    if k = "length" then .num xs.length
    else
      match strIndex? k with
      | some i => (xs.get? i).getD .undef
      | none => .undef
  | .str s, k =>
    if k = "length" then .num s.length
    else
      match strIndex? k with
      | some i =>
        match s.toList.get? i with
        | some c => .str (String.mk [c])
        | none => .undef
      | none => .undef
  | _, _ => .undef

mutual

/-- The ECMAScript `String()` conversion for the values in our model:
`String([]) = ""`, `String({}) = "[object Object]"`; array elements that
are `null` or `undefined` contribute the empty string and elements are
joined with commas.  `new Error(m)` stores `String(m)` as the message, so
this determines every error message the client produces. -/
def jsToString : JSVal → String
  | .undef => "undefined"
  | .null => "null"
  | .bool b => if b then "true" else "false"
  | .num n => toString n
  | .str s => s
  | .obj _ => "[object Object]"
  | .arr xs => String.intercalate "," (jsArrParts xs)

def jsArrParts : List JSVal → List String
  | [] => []
  | .undef :: xs => "" :: jsArrParts xs
  | .null :: xs => "" :: jsArrParts xs
  | x :: xs => jsToString x :: jsArrParts xs

end

/-- Split a string at every occurrence of a separator character, keeping
empty segments — the behaviour of JS `String.prototype.split` with a
one-character separator (structural, so it reduces in the kernel). -/
def splitCharAux (sep : Char) : List Char → List Char → List String
  | [], acc => [String.mk acc.reverse]
  | c :: cs, acc =>
    if c = sep then String.mk acc.reverse :: splitCharAux sep cs []
    else splitCharAux sep cs (c :: acc)

def splitChar (sep : Char) (s : String) : List String :=
  splitCharAux sep s.toList []

/-- The repository's `safeGet(obj, path, defaultVal)` helper (src/index.js
lines 16-25): if the base object is falsy return the default; otherwise
walk the dot-separated path, returning the default as soon as the current
value is `null` or `undefined`; finally return the reached value unless it
is `undefined`, in which case return the default. -/
def safeGetLoop : JSVal → List String → Option JSVal
  | cur, [] => some cur
  | .null, _ :: _ => none
  | .undef, _ :: _ => none
  | cur, p :: ps => safeGetLoop (jsGet cur p) ps

def safeGet (o : JSVal) (path : String) (dflt : JSVal) : JSVal :=
  if truthy o then
    match safeGetLoop o (splitChar '.' path) with
    | none => dflt
    | some .undef => dflt
    | some v => v
  else dflt

/-- JS strict equality `v === s` against a string: true exactly when `v`
is that same string (no coercion under `===`). -/
def jsEqStr : JSVal → String → Bool
  | .str t, s => t == s
  | _, _ => false

/-- JS `v > 0` for the values that can appear as a `length`: numbers
compare directly, booleans coerce to 0/1, numeric strings coerce to their
value; `undefined` (NaN), `null` (0) and objects (NaN) give false.  The
client only evaluates this on `existing.links.length`, which is a number
or `undefined` for every response shape the claims consider. -/
def jsGtZero : JSVal → Bool
  | .num n => n > 0
  | .bool b => b
  | .str s =>
    match strIndex? s with
    | some n => n > 0
    | none => false
  | _ => false

/-- JS sloppy-mode property assignment `o[k] = v`: updates the field in
place (keeping key order) or appends it; a silent no-op on primitive
bases. Call sites guard the `null`/`undefined` (throwing) bases. -/
def setFieldList : List (String × JSVal) → String → JSVal → List (String × JSVal)
  | [], k, v => [(k, v)]
  | (k₀, v₀) :: rest, k, v =>
    if k₀ = k then (k₀, v) :: rest else (k₀, v₀) :: setFieldList rest k v

def setField : JSVal → String → JSVal → JSVal
  | .obj fields, k, v => .obj (setFieldList fields k v)
  | o, _, _ => o

/-- The response handed back by the authenticated transport
(`authenticatedFetch`): status, ok flag and the body as text.  `bodyJson`
models the result of the engine builtin `JSON.parse` applied to
`bodyText`: `some v` if it parses to `v`, `none` if it throws. -/
structure HttpResponse where
  ok : Bool
  status : Nat
  bodyText : String
  bodyJson : Option JSVal

/-- The `try { data = JSON.parse(text) } catch (e) { data = { error: text } }`
pattern shared by all three executors. -/
def parseOrWrap (resp : HttpResponse) : JSVal :=
  match resp.bodyJson with
  | some d => d
  | none => .obj [("error", .str resp.bodyText)]

/-- The `Error` the client throws on a non-success response, carrying the
ad-hoc `status` and `data` fields the code attaches. -/
structure ApiError where
  message : String
  status : Nat
  data : JSVal

/-- Everything a client operation can throw: the constructed API error, a
`SyntaxError` escaping from `JSON.parse` on a success body, or a
`TypeError` from accessing a property of `null`/`undefined` or calling a
missing method. -/
inductive JsThrow where
  | api (e : ApiError)
  | parse
  | typeError (msg : String)

/-- The RPC-path message chain (src/index.js lines 123-124):
`data.error_summary || data.error_description ||
 safeGet(data, 'error.message', null) || text || 'API request failed'`. -/
def requestErrMsg (data : JSVal) (text : String) : JSVal :=
  jsOr (jsGet data "error_summary")
    (jsOr (jsGet data "error_description")
      (jsOr (safeGet data "error.message" .null)
        (jsOr (.str text) (.str "API request failed"))))

/-- `DropboxClient.prototype.request` (src/index.js lines 99-132), given
the transport's response.  On a non-success status the body is parsed (or
wrapped as `{error: text}`), the message chain is evaluated and an error
carrying status and data is thrown; reading `data.error_summary` throws a
`TypeError` when the parsed body is the JSON value `null`.  On success an
empty body yields `{}`, otherwise the parsed body is returned, and a
non-parsing success body lets the `JSON.parse` exception escape. -/
def request (resp : HttpResponse) : Except JsThrow JSVal :=
  if !resp.ok then
    match parseOrWrap resp with
    | .null => .error (.typeError "data is null")
    | .undef => .error (.typeError "data is undefined")
    | data =>
      .error (.api { message := jsToString (requestErrMsg data resp.bodyText),
                     status := resp.status, data := data })
  else
    if resp.bodyText = "" then .ok (.obj [])
    else
      match resp.bodyJson with
      | some v => .ok v
      | none => .error .parse

/-- The download-path message chain (src/index.js line 156):
`data.error_summary || 'Download failed'` — only two steps. -/
def downloadErrMsg (data : JSVal) : JSVal :=
  jsOr (jsGet data "error_summary") (.str "Download failed")

/-- `DropboxClient.prototype.downloadRequest` (src/index.js lines 137-163):
on success the raw response object is returned; on failure the body is
parsed or wrapped and an error with the two-step download message chain is
thrown. -/
def downloadRequest (resp : HttpResponse) : Except JsThrow HttpResponse :=
  if !resp.ok then
    match parseOrWrap resp with
    | .null => .error (.typeError "data is null")
    | .undef => .error (.typeError "data is undefined")
    | data =>
      .error (.api { message := jsToString (downloadErrMsg data),
                     status := resp.status, data := data })
  else .ok resp

/-- The upload-path message chain (src/index.js line 190):
`data.error_summary || safeGet(data, 'error.message', null) || text ||
 'Upload failed'` — note there is no `error_description` step. -/
def uploadErrMsg (data : JSVal) (text : String) : JSVal :=
  jsOr (jsGet data "error_summary")
    (jsOr (safeGet data "error.message" .null)
      (jsOr (.str text) (.str "Upload failed")))

/-- `DropboxClient.prototype.uploadRequest` (src/index.js lines 168-197):
the body is parsed (or wrapped) regardless of the status, then the code
branches: on failure an error with the upload message chain is thrown, on
success the parsed/wrapped data itself is returned. -/
def uploadRequest (resp : HttpResponse) : Except JsThrow JSVal :=
  let data := parseOrWrap resp
  if !resp.ok then
    match data with
    | .null => .error (.typeError "data is null")
    | .undef => .error (.typeError "data is undefined")
    | d =>
      .error (.api { message := jsToString (uploadErrMsg d resp.bodyText),
                     status := resp.status, data := d })
  else .ok data

/-- One network call issued by an orchestrated operation, recording the
endpoint and the payload exactly as the client builds them. -/
inductive ApiCall where
  | rpc (endpoint : String) (body : Option JSVal)
  | upload (endpoint : String) (apiArg : JSVal) (content : String)
  | download (endpoint : String) (apiArg : JSVal)

/-- The synthetic root-level path of the create fallback:
`'/' + docPath.split('/')[docPath.split('/').length - 1]`
(src/index.js lines 321-323). -/
def tempPathOf (docPath : String) : String :=
  "/" ++ (splitChar '/' docPath).getLastD ""

/-- The fallback trigger of `createPaperDoc` (src/index.js line 319):
`err.data && err.data.error && err.data.error['.tag'] === 'invalid_file_extension'`. -/
def fallbackCond : JsThrow → Bool
  | .api e =>
    truthy e.data && truthy (jsGet e.data "error") &&
      jsEqStr (jsGet (jsGet e.data "error") ".tag") "invalid_file_extension"
  | _ => false

/-- `DropboxClient.prototype.createPaperDoc` (src/index.js lines 311-347).
The first upload attempt targets the requested path; if it throws with the
`invalid_file_extension` discriminator, a second create is attempted at
the root-level temp path; if that result's `result_path || tempPath`
differs (strictly) from the requested path, a `/files/move_v2` RPC with
`allow_shared_folder: true` and `autorename: false` relocates the document
and its `metadata.path_display` overwrites `result.result_path`.  Property
reads on `null`/`undefined` intermediate values throw, as in JS.  The
second component lists the network calls issued, in order. -/
def createPaperDoc (oracle : Nat → HttpResponse) (docPath content : String)
    (importFormat : JSVal) : Except JsThrow JSVal × List ApiCall :=
  let fmt := jsOr importFormat (.str "markdown")
  let arg0 : JSVal := .obj [("path", .str docPath), ("import_format", fmt)]
  let call0 := ApiCall.upload "/files/paper/create" arg0 content
  match uploadRequest (oracle 0) with
  | .ok v => (.ok v, [call0])
  | .error e =>
    if fallbackCond e then
      let tempPath := tempPathOf docPath
      let arg1 : JSVal := .obj [("path", .str tempPath), ("import_format", fmt)]
      let call1 := ApiCall.upload "/files/paper/create" arg1 content
      match uploadRequest (oracle 1) with
      | .error e2 => (.error e2, [call0, call1])
      | .ok result =>
        match result with
        | .null => (.error (.typeError "result is null"), [call0, call1])
        | .undef => (.error (.typeError "result is undefined"), [call0, call1])
        | _ =>
          let actualPath := jsOr (jsGet result "result_path") (.str tempPath)
          if !(jsEqStr actualPath docPath) then
            let moveBody : JSVal := .obj [("from_path", actualPath),
              ("to_path", .str docPath), ("allow_shared_folder", .bool true),
              ("autorename", .bool false)]
            let call2 := ApiCall.rpc "/files/move_v2" (some moveBody)
            match request (oracle 2) with
            | .error e3 => (.error e3, [call0, call1, call2])
            | .ok moveResult =>
              match moveResult with
              | .null => (.error (.typeError "moveResult is null"), [call0, call1, call2])
              | .undef => (.error (.typeError "moveResult is undefined"), [call0, call1, call2])
              | _ =>
                match jsGet moveResult "metadata" with
                | .null => (.error (.typeError "metadata is null"), [call0, call1, call2])
                | .undef => (.error (.typeError "metadata is undefined"), [call0, call1, call2])
                | m =>
                  (.ok (setField result "result_path" (jsGet m "path_display")),
                   [call0, call1, call2])
          else (.ok result, [call0, call1])
    else (.error e, [call0])

/-- `DropboxClient.prototype.updatePaperDoc` (src/index.js lines 353-371).
When the update policy is strictly equal to `'update'` the code calls
`this.getFileInfo(docPath)` — a method that does not exist anywhere on
`DropboxClient` — so a `TypeError` is thrown before any network call is
issued.  For every other policy the single upload call is made and its
outcome returned unchanged. -/
def updatePaperDoc (oracle : Nat → HttpResponse) (docPath content : String)
    (importFormat updatePolicy : JSVal) : Except JsThrow JSVal × List ApiCall :=
  let apiArg : JSVal := .obj [("path", .str docPath),
    ("import_format", jsOr importFormat (.str "markdown")),
    ("doc_update_policy", jsOr updatePolicy (.str "overwrite"))]
  if jsEqStr updatePolicy "update" then
    (.error (.typeError "this.getFileInfo is not a function"), [])
  else
    let call := ApiCall.upload "/files/paper/update" apiArg content
    match uploadRequest (oracle 0) with
    | .ok v => (.ok v, [call])
    | .error e => (.error e, [call])

/-- The metadata the `getSharedLink` catch block extracts:
`safeGet(error, 'data.error.shared_link_already_exists.metadata', null)`
(src/index.js line 394).  Walking `data` first on the error object is the
same as walking the remaining path on the error's `data` field; errors
without a `data` field (parse and type errors) give `null`. -/
def sharedLinkMeta : JsThrow → JSVal
  | .api e => safeGet e.data "error.shared_link_already_exists.metadata" .null
  | _ => .null

/-- The catch block of `getSharedLink` (src/index.js lines 393-399): if
the extracted metadata is truthy it becomes the result, otherwise the
error is rethrown. -/
def sharedLinkRecovery (e : JsThrow) : Except JsThrow JSVal :=
  if truthy (sharedLinkMeta e) then .ok (sharedLinkMeta e) else .error e

/-- `DropboxClient.prototype.getSharedLink` (src/index.js lines 376-400).
List existing direct links; if `existing.links` is truthy with positive
length, return `existing.links[0]` without a second call; otherwise create
a link with public visibility.  Every throw inside the `try` — from either
network call or from a property access on a `null` listing result — flows
through the same recovery block.  The second component lists the calls
issued. -/
def getSharedLink (oracle : Nat → HttpResponse) (filePath : String) :
    Except JsThrow JSVal × List ApiCall :=
  let listBody : JSVal := .obj [("path", .str filePath), ("direct_only", .bool true)]
  let call0 := ApiCall.rpc "/sharing/list_shared_links" (some listBody)
  match request (oracle 0) with
  | .error e => (sharedLinkRecovery e, [call0])
  | .ok existing =>
    match existing with
    | .null => (sharedLinkRecovery (.typeError "existing is null"), [call0])
    | .undef => (sharedLinkRecovery (.typeError "existing is undefined"), [call0])
    | _ =>
      if truthy (jsGet existing "links") && jsGtZero (jsGet (jsGet existing "links") "length") then
        (.ok (jsGet (jsGet existing "links") "0"), [call0])
      else
        let createBody : JSVal := .obj [("path", .str filePath),
          ("settings", .obj [("requested_visibility", .str "public")])]
        let call1 := ApiCall.rpc "/sharing/create_shared_link_with_settings" (some createBody)
        match request (oracle 1) with
        | .ok v => (.ok v, [call0, call1])
        | .error e => (sharedLinkRecovery e, [call0, call1])

/-- First non-empty string in the list, else the fallback — the spec's
"strict priority order, first non-empty wins" rule, stated from the spec's
words for comparison with the code's truthiness chain. -/
def firstNonEmpty : List String → String → String
  | [], dflt => dflt
  | s :: rest, dflt => if s = "" then firstNonEmpty rest dflt else s

/-- The spec's RPC message rule: error_summary, then error_description,
then nested error.message, then the raw text, then the generic literal. -/
def specRequestMessage (es ed em : Option String) (text : String) : String :=
  firstNonEmpty [es.getD "", ed.getD "", em.getD "", text] "API request failed"

/-- The message rule the code actually implements on the download path. -/
def specDownloadMessage (es : Option String) : String :=
  firstNonEmpty [es.getD ""] "Download failed"

/-- The message rule the code actually implements on the upload path
(no error_description step). -/
def specUploadMessage (es em : Option String) (text : String) : String :=
  firstNonEmpty [es.getD "", em.getD "", text] "Upload failed"

/-- The spec's claimed download message rule, mirroring the full RPC
priority order with the download fallback literal. -/
def claimedDownloadMessage (es ed em : Option String) (text : String) : String :=
  firstNonEmpty [es.getD "", ed.getD "", em.getD "", text] "Download failed"

/-- A lookup result that is a string field or absent (`undefined`), paired
with its `Option String` reading. -/
def OptStrField (v : JSVal) (o : Option String) : Prop :=
  (v = .undef ∧ o = none) ∨ (∃ s, v = .str s ∧ o = some s)

/-- A `safeGet` result (default `null`) that is a string or missing,
paired with its `Option String` reading. -/
def NullOrStrField (v : JSVal) (o : Option String) : Prop :=
  (v = .null ∧ o = none) ∨ (∃ s, v = .str s ∧ o = some s)

/-- A non-success create response carrying the `invalid_file_extension`
discriminator, as Dropbox returns it. -/
def invalidExtData : JSVal :=
  .obj [("error_summary", .str "path/invalid_file_extension/.."),
        ("error", .obj [(".tag", .str "invalid_file_extension")])]

def respInvalidExt : HttpResponse :=
  { ok := false, status := 409,
    bodyText := "\x7b\"error_summary\":\"path/invalid_file_extension/..\",\"error\":\x7b\".tag\":\"invalid_file_extension\"\x7d\x7d",
    bodyJson := some invalidExtData }

/-- A success create response that reports the created document's path. -/
def respCreatedAtTemp : HttpResponse :=
  { ok := true, status := 200,
    bodyText := "\x7b\"result_path\":\"/Doc.paper\"\x7d",
    bodyJson := some (.obj [("result_path", .str "/Doc.paper")]) }

/-- A success create response with an empty JSON object body. -/
def respCreatedNoPath : HttpResponse :=
  { ok := true, status := 200, bodyText := "\x7b\x7d", bodyJson := some (.obj []) }

/-- A success move response reporting the destination path. -/
def respMoved : HttpResponse :=
  { ok := true, status := 200,
    bodyText := "\x7b\"metadata\":\x7b\"path_display\":\"/Shared/Doc.paper\"\x7d\x7d",
    bodyJson := some (.obj [("metadata", .obj [("path_display", .str "/Shared/Doc.paper")])]) }

/-- Oracle for the full create fallback: first create rejected with
`invalid_file_extension`, root-level create succeeds at `/Doc.paper`,
move succeeds reporting `/Shared/Doc.paper`. -/
def fallbackOracle : Nat → HttpResponse
  | 0 => respInvalidExt
  | 1 => respCreatedAtTemp
  | _ => respMoved

/-- Oracle for a root-level create: first create rejected with
`invalid_file_extension`, root-level retry succeeds without reporting a
path. -/
def rootOracle : Nat → HttpResponse
  | 0 => respInvalidExt
  | _ => respCreatedNoPath

/-- A non-success response whose `error_summary` is the empty JSON array:
truthy, but its string conversion is empty. -/
def respSummaryEmptyArr : HttpResponse :=
  { ok := false, status := 500,
    bodyText := "\x7b\"error_summary\":[]\x7d",
    bodyJson := some (.obj [("error_summary", .arr [])]) }

/-- A non-success response carrying only `error_description`. -/
def respDescOnly : HttpResponse :=
  { ok := false, status := 409,
    bodyText := "\x7b\"error_description\":\"broken\"\x7d",
    bodyJson := some (.obj [("error_description", .str "broken")]) }

/-- A non-success response carrying a non-empty `error_summary` along with
other message fields. -/
def respSummary : HttpResponse :=
  { ok := false, status := 429,
    bodyText := "\x7b\"error_summary\":\"too_many_requests/..\",\"error_description\":\"other\"\x7d",
    bodyJson := some (.obj [("error_summary", .str "too_many_requests/.."),
                            ("error_description", .str "other")]) }

/-- A shared-link metadata object as Dropbox reports it. -/
def linkMeta : JSVal :=
  .obj [("url", .str "https://www.dropbox.com/s/abc/file.pdf")]

/-- A listing response with one existing direct link. -/
def respLinksOne : HttpResponse :=
  { ok := true, status := 200,
    bodyText := "\x7b\"links\":[\x7b\"url\":\"https://www.dropbox.com/s/abc/file.pdf\"\x7d]\x7d",
    bodyJson := some (.obj [("links", .arr [linkMeta])]) }

/-- A listing response with no links. -/
def respLinksNone : HttpResponse :=
  { ok := true, status := 200,
    bodyText := "\x7b\"links\":[]\x7d",
    bodyJson := some (.obj [("links", .arr [])]) }

/-- A failed call whose payload embeds the already-existing link metadata
under the `shared_link_already_exists` discriminator. -/
def respLinkExists : HttpResponse :=
  { ok := false, status := 409,
    bodyText := "\x7b\"error_summary\":\"shared_link_already_exists/..\",\"error\":\x7b\"shared_link_already_exists\":\x7b\"metadata\":\x7b\"url\":\"https://www.dropbox.com/s/abc/file.pdf\"\x7d\x7d\x7d\x7d",
    bodyJson := some (.obj [("error_summary", .str "shared_link_already_exists/.."),
      ("error", .obj [("shared_link_already_exists", .obj [("metadata", linkMeta)])])]) }

/-- A plain failed call carrying no recovery payload. -/
def respPlainFail : HttpResponse :=
  { ok := false, status := 500,
    bodyText := "\x7b\"error_summary\":\"internal_error/..\"\x7d",
    bodyJson := some (.obj [("error_summary", .str "internal_error/..")]) }

/-- A success response with an empty body. -/
def respOkEmpty : HttpResponse :=
  { ok := true, status := 200, bodyText := "", bodyJson := none }

/-- A success response whose non-empty body is not valid JSON. -/
def respOkBadBody : HttpResponse :=
  { ok := true, status := 200, bodyText := "not json", bodyJson := none }

/-- The error thrown for `respSummary`, with the message the chain picks. -/
def respSummaryErr : ApiError :=
  { message := "too_many_requests/..", status := 429,
    data := .obj [("error_summary", .str "too_many_requests/.."), ("error_description", .str "other")] }

/-- The error thrown for `respPlainFail`. -/
def plainFailErr : ApiError :=
  { message := "internal_error/..", status := 500,
    data := .obj [("error_summary", .str "internal_error/..")] }

/-- The error thrown for `respSummaryEmptyArr`: the empty-array summary is
truthy, wins the chain, and stringifies to the empty message. -/
def summaryEmptyArrErr : ApiError :=
  { message := "", status := 500, data := .obj [("error_summary", .arr [])] }

/-- The error the download path throws for `respDescOnly`. -/
def descOnlyErr : ApiError :=
  { message := "Download failed", status := 409, data := .obj [("error_description", .str "broken")] }

/-- The listing call `getSharedLink` issues. -/
def listLinksCall (filePath : String) : ApiCall :=
  .rpc "/sharing/list_shared_links" (some (.obj [("path", .str filePath), ("direct_only", .bool true)]))

/-- The creation call `getSharedLink` issues, with public visibility. -/
def createLinkCall (filePath : String) : ApiCall :=
  .rpc "/sharing/create_shared_link_with_settings"
    (some (.obj [("path", .str filePath), ("settings", .obj [("requested_visibility", .str "public")])]))

/-- The error thrown for `respLinkExists`. -/
def linkExistsErr : ApiError :=
  { message := "shared_link_already_exists/..", status := 409,
    data := .obj [("error_summary", .str "shared_link_already_exists/.."),
      ("error", .obj [("shared_link_already_exists", .obj [("metadata", linkMeta)])])] }

/-- The create call `createPaperDoc` issues for a target path. -/
def createCall (path content : String) (importFormat : JSVal) : ApiCall :=
  .upload "/files/paper/create"
    (.obj [("path", .str path), ("import_format", jsOr importFormat (.str "markdown"))]) content

/-- The move call of the create fallback: shared-folder moves allowed,
auto-rename disabled. -/
def moveCallOf (fromPath : JSVal) (toPath : String) : ApiCall :=
  .rpc "/files/move_v2" (some (.obj [("from_path", fromPath), ("to_path", .str toPath),
    ("allow_shared_folder", .bool true), ("autorename", .bool false)]))

/-- The error thrown for `respInvalidExt`. -/
def invalidExtErr : ApiError :=
  { message := "path/invalid_file_extension/..", status := 409, data := invalidExtData }

theorem jsToString_str (s : String) : jsToString (.str s) = s := rfl

theorem jsOr_undef (v : JSVal) : jsOr .undef v = v := rfl

theorem jsOr_null (v : JSVal) : jsOr .null v = v := rfl

theorem jsToString_jsOr_str (s : String) (v : JSVal) :
    jsToString (jsOr (.str s) v) = if s = "" then jsToString v else s := by
  by_cases h : s = "" <;> simp [jsOr, truthy, h, jsToString_str]

theorem firstNonEmpty_cons (s : String) (l : List String) (d : String) :
    firstNonEmpty (s :: l) d = if s = "" then firstNonEmpty l d else s := rfl

theorem firstNonEmpty_ne_empty (l : List String) (d : String) (hd : d ≠ "") :
    firstNonEmpty l d ≠ "" := by
  induction l with
  | nil => exact hd
  | cons s rest ih =>
    rw [firstNonEmpty_cons]
    by_cases h : s = "" <;> simp [h, ih]

theorem request_api_fields (resp : HttpResponse) (h : resp.ok = false) (a : ApiError)
    (he : request resp = .error (.api a)) :
    a.message = jsToString (requestErrMsg (parseOrWrap resp) resp.bodyText) ∧
    a.status = resp.status ∧ a.data = parseOrWrap resp := by
  unfold request at he
  rw [h] at he
  rcases hp : parseOrWrap resp <;> rw [hp] at he <;> simp_all <;> subst he <;>
    exact ⟨rfl, rfl, rfl⟩

theorem downloadRequest_api_fields (resp : HttpResponse) (h : resp.ok = false) (a : ApiError)
    (he : downloadRequest resp = .error (.api a)) :
    a.message = jsToString (downloadErrMsg (parseOrWrap resp)) ∧
    a.status = resp.status ∧ a.data = parseOrWrap resp := by
  unfold downloadRequest at he
  rw [h] at he
  rcases hp : parseOrWrap resp <;> rw [hp] at he <;> simp_all <;> subst he <;>
    exact ⟨rfl, rfl, rfl⟩

theorem uploadRequest_api_fields (resp : HttpResponse) (h : resp.ok = false) (a : ApiError)
    (he : uploadRequest resp = .error (.api a)) :
    a.message = jsToString (uploadErrMsg (parseOrWrap resp) resp.bodyText) ∧
    a.status = resp.status ∧ a.data = parseOrWrap resp := by
  unfold uploadRequest at he
  rw [h] at he
  rcases hp : parseOrWrap resp <;> rw [hp] at he <;> simp_all <;> subst he <;>
    exact ⟨rfl, rfl, rfl⟩

/-- C8: on a success HTTP status, `request` returns the empty structured
result `{}` for an empty body, the parsed JSON for a non-empty body that
parses, and fails with the escaped `JSON.parse` exception for a non-empty
body that does not parse. -/
theorem request_success_body_handling (resp : HttpResponse) (hok : resp.ok = true) :
    (resp.bodyText = "" → request resp = .ok (.obj [])) ∧
    (∀ v, resp.bodyText ≠ "" → resp.bodyJson = some v → request resp = .ok v) ∧
    (resp.bodyText ≠ "" → resp.bodyJson = none → request resp = .error .parse) := by
  exact ⟨fun he => by simp [request, hok, he],
    fun v hne hj => by simp [request, hok, hne, hj],
    fun hne hj => by simp [request, hok, hne, hj]⟩

/-- Witness for C8 at concrete responses: an empty success body gives `{}`
and a non-empty non-JSON success body gives the parse failure. -/
theorem request_success_body_handling_witness :
    request respOkEmpty = .ok (.obj []) ∧ request respOkBadBody = .error .parse :=
  ⟨(request_success_body_handling respOkEmpty rfl).1 rfl,
   (request_success_body_handling respOkBadBody rfl).2.2 (by decide) rfl⟩

/-- C2 (code bug): with update policy `'update'`, `updatePaperDoc` calls
`this.getFileInfo(docPath)`, a method defined nowhere on `DropboxClient`,
so a `TypeError` is thrown before the upload call — the upload to
`/files/paper/update` is never attempted and no error of that upload can
be surfaced, for every oracle, path, content and format.  The inline
comment at src/index.js lines 364-367 states the intent the claim
describes ("we'll just attempt without it and handle the error"), so the
claim matches the intent and the code is the slip. -/
theorem updatePaperDoc_update_policy_crashes (oracle : Nat → HttpResponse)
    (docPath content : String) (importFormat : JSVal) :
    updatePaperDoc oracle docPath content importFormat (.str "update") =
      (.error (.typeError "this.getFileInfo is not a function"), []) := rfl

theorem requestErrMsg_eq_spec (data : JSVal) (text : String) (es ed em : Option String)
    (h1 : OptStrField (jsGet data "error_summary") es)
    (h2 : OptStrField (jsGet data "error_description") ed)
    (h3 : NullOrStrField (safeGet data "error.message" .null) em) :
    jsToString (requestErrMsg data text) = specRequestMessage es ed em text := by
  unfold requestErrMsg specRequestMessage
  rcases h1 with ⟨hv1, rfl⟩ | ⟨s1, hv1, rfl⟩ <;>
    rcases h2 with ⟨hv2, rfl⟩ | ⟨s2, hv2, rfl⟩ <;>
      rcases h3 with ⟨hv3, rfl⟩ | ⟨s3, hv3, rfl⟩ <;>
        rw [hv1, hv2, hv3] <;>
          simp only [jsOr_undef, jsOr_null, jsToString_jsOr_str, jsToString_str,
            Option.getD_some, Option.getD_none, firstNonEmpty_cons, firstNonEmpty] <;>
            split_ifs <;> simp_all [firstNonEmpty]

theorem downloadErrMsg_eq_spec (data : JSVal) (es : Option String)
    (h1 : OptStrField (jsGet data "error_summary") es) :
    jsToString (downloadErrMsg data) = specDownloadMessage es := by
  unfold downloadErrMsg specDownloadMessage
  rcases h1 with ⟨hv1, rfl⟩ | ⟨s1, hv1, rfl⟩ <;>
    rw [hv1] <;>
      simp only [jsOr_undef, jsToString_jsOr_str, jsToString_str,
        Option.getD_some, Option.getD_none, firstNonEmpty_cons, firstNonEmpty] <;>
        split_ifs <;> simp_all [firstNonEmpty]

theorem uploadErrMsg_eq_spec (data : JSVal) (text : String) (es em : Option String)
    (h1 : OptStrField (jsGet data "error_summary") es)
    (h3 : NullOrStrField (safeGet data "error.message" .null) em) :
    jsToString (uploadErrMsg data text) = specUploadMessage es em text := by
  unfold uploadErrMsg specUploadMessage
  rcases h1 with ⟨hv1, rfl⟩ | ⟨s1, hv1, rfl⟩ <;>
    rcases h3 with ⟨hv3, rfl⟩ | ⟨s3, hv3, rfl⟩ <;>
      rw [hv1, hv3] <;>
        simp only [jsOr_undef, jsOr_null, jsToString_jsOr_str, jsToString_str,
          Option.getD_some, Option.getD_none, firstNonEmpty_cons, firstNonEmpty] <;>
          split_ifs <;> simp_all [firstNonEmpty]

/-- Claim C3: on a non-success RPC response the error message follows the
strict priority order error_summary, error_description, nested
error.message, raw body text, literal "API request failed" (first
non-empty wins, with the fields read as strings where present); whenever
the parsed body carries a non-empty string error_summary the message
equals it regardless of other fields; and for an unparseable non-empty
body the message is the raw text verbatim. -/
theorem request_error_message_priority :
    (∀ (resp : HttpResponse) (es ed em : Option String) (a : ApiError),
      resp.ok = false →
      OptStrField (jsGet (parseOrWrap resp) "error_summary") es →
      OptStrField (jsGet (parseOrWrap resp) "error_description") ed →
      NullOrStrField (safeGet (parseOrWrap resp) "error.message" .null) em →
      request resp = .error (.api a) →
      a.message = specRequestMessage es ed em resp.bodyText) ∧
    (∀ (resp : HttpResponse) (s : String) (a : ApiError),
      resp.ok = false → jsGet (parseOrWrap resp) "error_summary" = .str s → s ≠ "" →
      request resp = .error (.api a) → a.message = s) ∧
    (∀ (resp : HttpResponse) (a : ApiError),
      resp.ok = false → resp.bodyJson = none → resp.bodyText ≠ "" →
      request resp = .error (.api a) → a.message = resp.bodyText) := by
  refine ⟨fun resp es ed em a hok h1 h2 h3 he => ?_,
    fun resp s a hok hsum hs he => ?_, fun resp a hok hj htext he => ?_⟩
  · obtain ⟨hm, _, _⟩ := request_api_fields resp hok a he
    rw [hm]
    exact requestErrMsg_eq_spec _ _ es ed em h1 h2 h3
  · obtain ⟨hm, _, _⟩ := request_api_fields resp hok a he
    rw [hm]
    unfold requestErrMsg
    rw [hsum, jsToString_jsOr_str]
    simp [hs]
  · obtain ⟨hm, _, _⟩ := request_api_fields resp hok a he
    have hdata : parseOrWrap resp = .obj [("error", .str resp.bodyText)] := by
      simp [parseOrWrap, hj]
    rw [hm, hdata]
    have hred : requestErrMsg (.obj [("error", .str resp.bodyText)]) resp.bodyText =
        jsOr (.str resp.bodyText) (.str "API request failed") := rfl
    rw [hred, jsToString_jsOr_str]
    simp [htext]

/-- Witness for C3: a concrete 429 response carrying both error_summary
and error_description, where the summary wins. -/
theorem request_error_message_priority_witness :
    request respSummary = .error (.api respSummaryErr) ∧
    respSummaryErr.message =
      specRequestMessage (some "too_many_requests/..") (some "other") none respSummary.bodyText ∧
    specRequestMessage (some "too_many_requests/..") (some "other") none respSummary.bodyText =
      "too_many_requests/.." :=
  ⟨rfl,
   request_error_message_priority.1 respSummary _ _ _ respSummaryErr rfl
     (Or.inr ⟨_, rfl, rfl⟩) (Or.inr ⟨_, rfl, rfl⟩) (Or.inl ⟨rfl, rfl⟩) rfl,
   rfl⟩

/-- Counterexample for C7: the JSON body `\x7b"error_summary":[]\x7d` on a failed
RPC yields a normalized error whose message is the EMPTY string — the
empty array is truthy, wins the chain, and `String([])` is `""` — so not
every normalized error has a non-empty message. -/
theorem request_empty_message_counterexample :
    request respSummaryEmptyArr = .error (.api summaryEmptyArrErr) ∧
    summaryEmptyArrErr.message = "" :=
  ⟨rfl, rfl⟩

/-- Claim C7 (amended): every normalized error produced on the RPC,
download and upload failure paths has a non-empty message, provided the
message fields each chain consults (error_summary, error_description,
nested error.message, as applicable) are strings or absent in the parsed
body. -/
theorem error_message_nonempty_for_string_fields :
    (∀ (resp : HttpResponse) (es ed em : Option String) (a : ApiError),
      resp.ok = false →
      OptStrField (jsGet (parseOrWrap resp) "error_summary") es →
      OptStrField (jsGet (parseOrWrap resp) "error_description") ed →
      NullOrStrField (safeGet (parseOrWrap resp) "error.message" .null) em →
      request resp = .error (.api a) → a.message ≠ "") ∧
    (∀ (resp : HttpResponse) (es : Option String) (a : ApiError),
      resp.ok = false →
      OptStrField (jsGet (parseOrWrap resp) "error_summary") es →
      downloadRequest resp = .error (.api a) → a.message ≠ "") ∧
    (∀ (resp : HttpResponse) (es em : Option String) (a : ApiError),
      resp.ok = false →
      OptStrField (jsGet (parseOrWrap resp) "error_summary") es →
      NullOrStrField (safeGet (parseOrWrap resp) "error.message" .null) em →
      uploadRequest resp = .error (.api a) → a.message ≠ "") := by
  refine ⟨fun resp es ed em a hok h1 h2 h3 he => ?_,
    fun resp es a hok h1 he => ?_, fun resp es em a hok h1 h3 he => ?_⟩
  · obtain ⟨hm, _, _⟩ := request_api_fields resp hok a he
    rw [hm, requestErrMsg_eq_spec _ _ es ed em h1 h2 h3]
    exact firstNonEmpty_ne_empty _ _ (by decide)
  · obtain ⟨hm, _, _⟩ := downloadRequest_api_fields resp hok a he
    rw [hm, downloadErrMsg_eq_spec _ es h1]
    exact firstNonEmpty_ne_empty _ _ (by decide)
  · obtain ⟨hm, _, _⟩ := uploadRequest_api_fields resp hok a he
    rw [hm, uploadErrMsg_eq_spec _ _ es em h1 h3]
    exact firstNonEmpty_ne_empty _ _ (by decide)

/-- Witness for C7 (amended) at a concrete plain failure. -/
theorem error_message_nonempty_witness :
    request respPlainFail = .error (.api plainFailErr) ∧ plainFailErr.message ≠ "" :=
  ⟨rfl,
   error_message_nonempty_for_string_fields.1 respPlainFail
     (some "internal_error/..") none none plainFailErr rfl
     (Or.inr ⟨_, rfl, rfl⟩) (Or.inl ⟨rfl, rfl⟩) (Or.inl ⟨rfl, rfl⟩) rfl⟩

/-- Counterexample for C4: a failed download whose body carries only
error_description gets the message "Download failed", not the
description — the download chain has no error_description step, so it
does not follow the RPC priority order the claim asserts. -/
theorem download_desc_only_counterexample :
    downloadRequest respDescOnly = .error (.api descOnlyErr) ∧
    descOnlyErr.message = "Download failed" ∧
    claimedDownloadMessage none (some "broken") none respDescOnly.bodyText = "broken" ∧
    descOnlyErr.message ≠ "broken" :=
  ⟨rfl, rfl, rfl, by decide⟩

/-- Claim C4 (amended): a failed download's message is error_summary or
else the literal "Download failed" (two steps only); a failed upload's
message is error_summary, then nested error.message, then raw text, then
"Upload failed" (no error_description step); and uploads parse the body
(wrapping raw text on parse failure) regardless of status — the success
result is the parsed/wrapped data, and the failure payload is that same
data. -/
theorem download_upload_error_message_rules :
    (∀ (resp : HttpResponse) (es : Option String) (a : ApiError),
      resp.ok = false →
      OptStrField (jsGet (parseOrWrap resp) "error_summary") es →
      downloadRequest resp = .error (.api a) → a.message = specDownloadMessage es) ∧
    (∀ (resp : HttpResponse) (es em : Option String) (a : ApiError),
      resp.ok = false →
      OptStrField (jsGet (parseOrWrap resp) "error_summary") es →
      NullOrStrField (safeGet (parseOrWrap resp) "error.message" .null) em →
      uploadRequest resp = .error (.api a) → a.message = specUploadMessage es em resp.bodyText) ∧
    (∀ resp : HttpResponse, resp.ok = true → uploadRequest resp = .ok (parseOrWrap resp)) ∧
    (∀ (resp : HttpResponse) (a : ApiError),
      uploadRequest resp = .error (.api a) → a.data = parseOrWrap resp) := by
  refine ⟨fun resp es a hok h1 he => ?_, fun resp es em a hok h1 h3 he => ?_,
    fun resp hok => ?_, fun resp a he => ?_⟩
  · obtain ⟨hm, _, _⟩ := downloadRequest_api_fields resp hok a he
    rw [hm]
    exact downloadErrMsg_eq_spec _ es h1
  · obtain ⟨hm, _, _⟩ := uploadRequest_api_fields resp hok a he
    rw [hm]
    exact uploadErrMsg_eq_spec _ _ es em h1 h3
  · simp [uploadRequest, hok]
  · rcases hok : resp.ok with _ | _
    · exact (uploadRequest_api_fields resp hok a he).2.2
    · rw [uploadRequest] at he
      simp [hok] at he

/-- Witness for C4 (amended) at a concrete failed download. -/
theorem download_upload_error_message_rules_witness :
    downloadRequest respPlainFail = .error (.api plainFailErr) ∧
    plainFailErr.message = specDownloadMessage (some "internal_error/..") :=
  ⟨rfl,
   download_upload_error_message_rules.1 respPlainFail (some "internal_error/..") plainFailErr rfl
     (Or.inr ⟨_, rfl, rfl⟩) rfl⟩

theorem arr_links_cond (l : JSVal) (ls : List JSVal) :
    (truthy (JSVal.arr (l :: ls)) && jsGtZero (jsGet (JSVal.arr (l :: ls)) "length")) = true := by
  simp [truthy, jsGet, jsGtZero]

theorem arr_get_zero (l : JSVal) (ls : List JSVal) : jsGet (JSVal.arr (l :: ls)) "0" = l := rfl

/-- Claim C5: `getSharedLink` first lists existing direct links; if the
listing's `links` array is non-empty it returns its first element with no
creation call; otherwise it issues the creation call with public
visibility; a creation failure whose payload carries truthy metadata at
data.error.shared_link_already_exists.metadata returns that metadata, and
every other creation failure propagates. -/
theorem getSharedLink_lookup_then_create :
    (∀ (oracle : Nat → HttpResponse) (filePath : String) (existing l : JSVal) (ls : List JSVal),
      request (oracle 0) = .ok existing →
      jsGet existing "links" = .arr (l :: ls) →
      getSharedLink oracle filePath = (.ok l, [listLinksCall filePath])) ∧
    (∀ (oracle : Nat → HttpResponse) (filePath : String) (existing : JSVal),
      request (oracle 0) = .ok existing →
      existing ≠ .null → existing ≠ .undef →
      (truthy (jsGet existing "links") &&
        jsGtZero (jsGet (jsGet existing "links") "length")) = false →
      (getSharedLink oracle filePath).2 = [listLinksCall filePath, createLinkCall filePath]) ∧
    (∀ (oracle : Nat → HttpResponse) (filePath : String) (existing : JSVal) (e : JsThrow),
      request (oracle 0) = .ok existing →
      existing ≠ .null → existing ≠ .undef →
      (truthy (jsGet existing "links") &&
        jsGtZero (jsGet (jsGet existing "links") "length")) = false →
      request (oracle 1) = .error e →
      truthy (sharedLinkMeta e) = true →
      (getSharedLink oracle filePath).1 = .ok (sharedLinkMeta e)) ∧
    (∀ (oracle : Nat → HttpResponse) (filePath : String) (existing : JSVal) (e : JsThrow),
      request (oracle 0) = .ok existing →
      existing ≠ .null → existing ≠ .undef →
      (truthy (jsGet existing "links") &&
        jsGtZero (jsGet (jsGet existing "links") "length")) = false →
      request (oracle 1) = .error e →
      truthy (sharedLinkMeta e) = false →
      (getSharedLink oracle filePath).1 = .error e) := by
  refine ⟨fun oracle fp existing l ls hreq hlinks => ?_,
    fun oracle fp existing hreq hn hu hcond => ?_,
    fun oracle fp existing e hreq hn hu hcond he ht => ?_,
    fun oracle fp existing e hreq hn hu hcond he ht => ?_⟩
  · unfold getSharedLink
    rw [hreq]
    rcases existing with _ | _ | b | n | s | xs | fs
    case obj => simp [hlinks, arr_links_cond, arr_get_zero, listLinksCall]
    all_goals exact JSVal.noConfusion (show JSVal.undef = JSVal.arr (l :: ls) from hlinks)
  · unfold getSharedLink
    rw [hreq]
    rcases existing with _ | _ | b | n | s | xs | fs
    case null => exact absurd rfl hn
    case undef => exact absurd rfl hu
    all_goals
      simp only [hcond, Bool.false_eq_true, if_false]
      rcases request (oracle 1) with v | e2 <;> rfl
  · unfold getSharedLink
    rw [hreq]
    rcases existing with _ | _ | b | n | s | xs | fs
    case null => exact absurd rfl hn
    case undef => exact absurd rfl hu
    all_goals
      simp only [hcond, Bool.false_eq_true, if_false, he]
      simp [sharedLinkRecovery, ht]
  · unfold getSharedLink
    rw [hreq]
    rcases existing with _ | _ | b | n | s | xs | fs
    case null => exact absurd rfl hn
    case undef => exact absurd rfl hu
    all_goals
      simp only [hcond, Bool.false_eq_true, if_false, he]
      simp [sharedLinkRecovery, ht]

/-- Witness for C5: a listing with one link returns it after a single
call; an empty listing followed by a creation failure carrying the
already-exists metadata returns the embedded link metadata. -/
theorem getSharedLink_lookup_then_create_witness :
    getSharedLink (fun _ => respLinksOne) "/file.pdf" =
      (.ok linkMeta, [listLinksCall "/file.pdf"]) ∧
    (getSharedLink (fun n => if n = 0 then respLinksNone else respLinkExists) "/file.pdf").1 =
      .ok (sharedLinkMeta (.api linkExistsErr)) ∧
    sharedLinkMeta (.api linkExistsErr) = linkMeta :=
  ⟨getSharedLink_lookup_then_create.1 (fun _ => respLinksOne) "/file.pdf"
      (.obj [("links", .arr [linkMeta])]) linkMeta [] rfl rfl,
   getSharedLink_lookup_then_create.2.2.1 (fun n => if n = 0 then respLinksNone else respLinkExists)
      "/file.pdf" (.obj [("links", .arr [])]) (.api linkExistsErr) rfl (by simp) (by simp) rfl rfl rfl,
   rfl⟩

/-- Claim C10: every error thrown inside `getSharedLink` — including one
from the initial listing call — whose payload carries truthy metadata at
data.error.shared_link_already_exists.metadata makes that metadata the
result instead of the error propagating. -/
theorem getSharedLink_listing_error_recovery :
    ∀ (oracle : Nat → HttpResponse) (filePath : String) (e : JsThrow),
      request (oracle 0) = .error e →
      truthy (sharedLinkMeta e) = true →
      getSharedLink oracle filePath = (.ok (sharedLinkMeta e), [listLinksCall filePath]) := by
  intro oracle fp e he ht
  unfold getSharedLink
  rw [he]
  simp [sharedLinkRecovery, ht, listLinksCall]

/-- Witness for C10: a listing call that itself fails with the
already-exists payload returns the embedded metadata after one call. -/
theorem getSharedLink_listing_error_recovery_witness :
    getSharedLink (fun _ => respLinkExists) "/file.pdf" =
      (.ok (sharedLinkMeta (.api linkExistsErr)), [listLinksCall "/file.pdf"]) ∧
    sharedLinkMeta (.api linkExistsErr) = linkMeta :=
  ⟨getSharedLink_listing_error_recovery (fun _ => respLinkExists) "/file.pdf"
      (.api linkExistsErr) rfl rfl,
   rfl⟩

theorem jsGet_setField (fs : List (String × JSVal)) (k : String) (v : JSVal) :
    jsGet (setField (.obj fs) k v) k = v := by
  induction fs with
  | nil => simp [setField, setFieldList, jsGet, List.lookup]
  | cons kv rest ih =>
    rcases kv with ⟨k₀, v₀⟩
    by_cases h : k₀ = k
    · simp [setField, setFieldList, h, jsGet, List.lookup]
    · have hb : (k == k₀) = false := by simp [Ne.symm h]
      simp only [setField, setFieldList, if_neg h, jsGet, List.lookup, hb]
      simpa [jsGet, setField] using ih

/-- Claim C9: in the create fallback, the move call is issued exactly when
the root-creation result's `result_path || tempPath` differs (strictly)
from the requested path; when they are equal no move call is made, the
creation result is returned with `result_path` unmodified, and only two
calls total are issued. -/
theorem createPaperDoc_move_only_when_path_differs
    (oracle : Nat → HttpResponse) (docPath content : String) (importFormat : JSVal)
    (e : JsThrow) (result : JSVal)
    (h0 : uploadRequest (oracle 0) = .error e)
    (hfb : fallbackCond e = true)
    (h1 : uploadRequest (oracle 1) = .ok result)
    (hn : result ≠ .null) (hu : result ≠ .undef) :
    (jsEqStr (jsOr (jsGet result "result_path") (.str (tempPathOf docPath))) docPath = true →
      createPaperDoc oracle docPath content importFormat =
        (.ok result, [createCall docPath content importFormat,
          createCall (tempPathOf docPath) content importFormat])) ∧
    (jsEqStr (jsOr (jsGet result "result_path") (.str (tempPathOf docPath))) docPath = false →
      (createPaperDoc oracle docPath content importFormat).2 =
        [createCall docPath content importFormat,
         createCall (tempPathOf docPath) content importFormat,
         moveCallOf (jsOr (jsGet result "result_path") (.str (tempPathOf docPath))) docPath]) := by
  constructor
  · intro heq
    unfold createPaperDoc
    rw [h0]
    simp only [hfb, if_true, h1]
    rcases result with _ | _ | b | n | s | xs | fs
    · exact absurd rfl hu
    · exact absurd rfl hn
    all_goals simp [heq, createCall]
  · intro hne
    unfold createPaperDoc
    rw [h0]
    simp only [hfb, if_true, h1]
    rcases result with _ | _ | b | n | s | xs | fs
    · exact absurd rfl hu
    · exact absurd rfl hn
    all_goals
      simp only [hne, Bool.not_false, if_true]
      rcases request (oracle 2) with e3 | mv
      · simp [createCall, moveCallOf]
      · cases hm : jsGet mv "metadata" <;>
          rcases mv with _ | _ | b2 | n2 | s2 | xs2 | fs2 <;>
            simp_all [createCall, moveCallOf]

/-- Witness for C9: a root-level fallback whose temp path equals the
requested path issues no move (two calls, result unchanged), while a
shared-folder fallback whose reported path differs issues the move as the
third call. -/
theorem createPaperDoc_move_only_when_path_differs_witness :
    createPaperDoc rootOracle "/Doc.paper" "hello" (.str "markdown") =
      (.ok (.obj []), [createCall "/Doc.paper" "hello" (.str "markdown"),
        createCall (tempPathOf "/Doc.paper") "hello" (.str "markdown")]) ∧
    (createPaperDoc fallbackOracle "/Shared/Doc.paper" "hello" (.str "markdown")).2 =
      [createCall "/Shared/Doc.paper" "hello" (.str "markdown"),
       createCall (tempPathOf "/Shared/Doc.paper") "hello" (.str "markdown"),
       moveCallOf (jsOr (jsGet (JSVal.obj [("result_path", .str "/Doc.paper")]) "result_path")
         (.str (tempPathOf "/Shared/Doc.paper"))) "/Shared/Doc.paper"] :=
  ⟨(createPaperDoc_move_only_when_path_differs rootOracle "/Doc.paper" "hello" (.str "markdown")
      (.api invalidExtErr) (.obj []) rfl rfl rfl (by simp) (by simp)).1 rfl,
   (createPaperDoc_move_only_when_path_differs fallbackOracle "/Shared/Doc.paper" "hello"
      (.str "markdown") (.api invalidExtErr) (.obj [("result_path", .str "/Doc.paper")])
      rfl rfl rfl (by simp) (by simp)).2 rfl⟩

/-- Claim C1 (amended): when the first create fails with the
invalid_file_extension discriminator, `createPaperDoc` retries creation
at the root-level path built from the final path segment; when the
retry's reported path (its `result_path`, defaulting to the temp path)
differs from the requested path, it issues the move call with
allow_shared_folder true and autorename false — exactly two calls beyond
the failed attempt — and the returned result's `result_path` is the move
response's `metadata.path_display`, hence the originally requested path
whenever the move response reports its destination verbatim. -/
theorem createPaperDoc_fallback_create_then_move
    (oracle : Nat → HttpResponse) (docPath content : String) (importFormat : JSVal)
    (e : JsThrow) (fs : List (String × JSVal)) (moveResult m : JSVal)
    (h0 : uploadRequest (oracle 0) = .error e)
    (hfb : fallbackCond e = true)
    (h1 : uploadRequest (oracle 1) = .ok (.obj fs))
    (hne : jsEqStr (jsOr (jsGet (.obj fs) "result_path") (.str (tempPathOf docPath))) docPath = false)
    (h2 : request (oracle 2) = .ok moveResult)
    (hm : jsGet moveResult "metadata" = m)
    (hmn : m ≠ .null) (hmu : m ≠ .undef)
    (hpd : jsGet m "path_display" = .str docPath) :
    createPaperDoc oracle docPath content importFormat =
      (.ok (setField (.obj fs) "result_path" (.str docPath)),
       [createCall docPath content importFormat,
        createCall (tempPathOf docPath) content importFormat,
        moveCallOf (jsOr (jsGet (.obj fs) "result_path") (.str (tempPathOf docPath))) docPath]) ∧
    jsGet (setField (.obj fs) "result_path" (.str docPath)) "result_path" = .str docPath := by
  refine ⟨?_, jsGet_setField fs "result_path" (.str docPath)⟩
  unfold createPaperDoc
  rw [h0]
  simp only [hfb, if_true, h1]
  simp only [hne, Bool.not_false, if_true, h2]
  rcases moveResult with _ | _ | b | n | s | xs | fs2
  · exact absurd hm.symm (by simpa [jsGet] using hmu)
  · exact absurd hm.symm (by simpa [jsGet] using hmu)
  all_goals
    rw [hm] at *
    rcases m with _ | _ | mb | mn | ms | mxs | mfs
    · exact absurd rfl hmu
    · exact absurd rfl hmn
    all_goals simp_all [createCall, moveCallOf, hpd]

/-- Witness for C1 (amended): the full fallback at a shared-folder path,
with the move response reporting the requested destination; the returned
result's `result_path` is the requested path. -/
theorem createPaperDoc_fallback_create_then_move_witness :
    createPaperDoc fallbackOracle "/Shared/Doc.paper" "hello" (.str "markdown") =
      (.ok (setField (.obj [("result_path", .str "/Doc.paper")]) "result_path" (.str "/Shared/Doc.paper")),
       [createCall "/Shared/Doc.paper" "hello" (.str "markdown"),
        createCall (tempPathOf "/Shared/Doc.paper") "hello" (.str "markdown"),
        moveCallOf (jsOr (jsGet (.obj [("result_path", .str "/Doc.paper")]) "result_path")
          (.str (tempPathOf "/Shared/Doc.paper"))) "/Shared/Doc.paper"]) ∧
    jsGet (setField (.obj [("result_path", .str "/Doc.paper")]) "result_path"
      (.str "/Shared/Doc.paper")) "result_path" = .str "/Shared/Doc.paper" ∧
    setField (.obj [("result_path", .str "/Doc.paper")]) "result_path" (.str "/Shared/Doc.paper") =
      .obj [("result_path", .str "/Shared/Doc.paper")] :=
  ⟨(createPaperDoc_fallback_create_then_move fallbackOracle "/Shared/Doc.paper" "hello"
      (.str "markdown") (.api invalidExtErr) [("result_path", .str "/Doc.paper")]
      (.obj [("metadata", .obj [("path_display", .str "/Shared/Doc.paper")])])
      (.obj [("path_display", .str "/Shared/Doc.paper")])
      rfl rfl rfl rfl rfl rfl (by simp) (by simp) rfl).1,
   (createPaperDoc_fallback_create_then_move fallbackOracle "/Shared/Doc.paper" "hello"
      (.str "markdown") (.api invalidExtErr) [("result_path", .str "/Doc.paper")]
      (.obj [("metadata", .obj [("path_display", .str "/Shared/Doc.paper")])])
      (.obj [("path_display", .str "/Shared/Doc.paper")])
      rfl rfl rfl rfl rfl rfl (by simp) (by simp) rfl).2,
   rfl⟩

/-- Counterexample for C1: at the root-level path "/Doc.paper" the first
create fails with the invalid_file_extension discriminator, but the temp
path coincides with the requested path, so NO move call is issued and
only ONE call beyond the failed attempt is made (two calls total, both
creates) — not the move plus exactly-two-extra-calls the claim asserts
for every such operation. -/
theorem createPaperDoc_root_fallback_counterexample :
    uploadRequest (rootOracle 0) = .error (.api invalidExtErr) ∧
    fallbackCond (.api invalidExtErr) = true ∧
    createPaperDoc rootOracle "/Doc.paper" "hello" (.str "markdown") =
      (.ok (.obj []),
       [createCall "/Doc.paper" "hello" (.str "markdown"),
        createCall "/Doc.paper" "hello" (.str "markdown")]) ∧
    (createPaperDoc rootOracle "/Doc.paper" "hello" (.str "markdown")).2.length = 2 :=
  ⟨rfl, rfl, rfl, rfl⟩

/-- Counterexample for C6: the create fallback issues THREE sequential
network calls in total (create, create-at-root, move), exceeding the
claimed bound of two. -/
theorem createPaperDoc_three_calls_counterexample :
    (createPaperDoc fallbackOracle "/Shared/Doc.paper" "hello" (.str "markdown")).2.length = 3 ∧
    2 < (createPaperDoc fallbackOracle "/Shared/Doc.paper" "hello" (.str "markdown")).2.length :=
  ⟨rfl, by decide⟩

/-- Claim C6 (amended): for every oracle and input, `createPaperDoc`
issues at most three network calls (three only in the fallback),
`getSharedLink` at most two, and `updatePaperDoc` at most one. -/
theorem operation_call_bounds :
    (∀ (oracle : Nat → HttpResponse) (docPath content : String) (importFormat : JSVal),
      (createPaperDoc oracle docPath content importFormat).2.length ≤ 3) ∧
    (∀ (oracle : Nat → HttpResponse) (filePath : String),
      (getSharedLink oracle filePath).2.length ≤ 2) ∧
    (∀ (oracle : Nat → HttpResponse) (docPath content : String) (importFormat updatePolicy : JSVal),
      (updatePaperDoc oracle docPath content importFormat updatePolicy).2.length ≤ 1) := by
  refine ⟨fun oracle p c f => ?_, fun oracle p => ?_, fun oracle p c f pol => ?_⟩
  · unfold createPaperDoc
    repeat' split
    all_goals first
      | decide
      | (simp; done)
      | (simp only []; split_ifs <;> simp)
  · unfold getSharedLink
    repeat' split
    all_goals simp
  · unfold updatePaperDoc
    repeat' split
    all_goals simp
